import Mathlib

/-!
Verification development for the electron-playwright-mcp repository.

The embedding covers the three parts of the core the claims are about:
* the Snapshot Engine (`processElement` / `getSelector` inside
  `ElectronBrowserManager.snapshot` in `src/index.ts`),
* the session handlers that consult the Ref Map
  (`click`, `type`, `hover`, `selectOption`, `drag`, `evaluate`, `waitFor`,
  `navigate`, `snapshot` in `src/index.ts`),
* the tool dispatcher (`ElectronMCPServer.setupToolHandlers`) together with
  the zod argument schemas of the tool registry (`tools-registry`).

Machine numbers that occur (ref counters, depths) are natural numbers; the
JavaScript runtime collaborators (the DOM and zod) are modelled explicitly
where the code calls into them, with comments marking each modelling choice.
-/

namespace EPMcp

/-! ### JS string method models

The snapshot engine calls the JS string methods `toLowerCase`, `trim`,
`substring` and `split`.  They are modelled here by structurally recursive
functions over the character list of a string (ASCII lowering, Unicode
whitespace trimming, and single-separator splitting, as in JS). -/

/-- JS `s.toLowerCase()` (ASCII model). -/
def jsToLower (s : String) : String := String.mk (s.data.map Char.toLower)

/-- JS `s.trim()`: strip whitespace from both ends. -/
def jsTrim (s : String) : String :=
  String.mk (((s.data.dropWhile Char.isWhitespace).reverse.dropWhile Char.isWhitespace).reverse)

/-- Worker for `jsSplitChar`: accumulates the current piece reversed. -/
def splitCharGo (sep : Char) : List Char → List Char → List String
  | acc, [] => [String.mk acc.reverse]
  | acc, c :: cs =>
    if c == sep then String.mk acc.reverse :: splitCharGo sep [] cs
    else splitCharGo sep (c :: acc) cs

/-- JS `s.split(sep)` for a one-character separator: pieces between each
occurrence, keeping empty pieces. -/
def jsSplitChar (s : String) (sep : Char) : List String := splitCharGo sep [] s.data

/-! ### Decimal rendering of a natural number

Model of the JavaScript template literal `` `e${refCounter++}` `` applied to a
nonnegative integer: standard decimal notation.  Defined with a fuel argument
so that the function is structurally recursive and evaluates by `decide`. -/

/-- One decimal digit character, for `n < 10`. -/
def decDigitChar (n : Nat) : Char := Char.ofNat (48 + n)

/-- Decimal digits of `n`, most significant first; `fuel` bounds recursion
depth (any `fuel ≥ n` is enough). -/
def natDecGo : Nat → Nat → List Char
  | 0, n => [decDigitChar n]
  | fuel + 1, n =>
    if n < 10 then [decDigitChar n]
    else natDecGo fuel (n / 10) ++ [decDigitChar (n % 10)]

/-- Decimal digit string of a natural number. -/
def natDecDigits (n : Nat) : List Char := natDecGo n n

/-- Decimal string of a natural number (the JS number-to-string conversion
for a nonnegative integer). -/
def natToDec (n : Nat) : String := String.mk (natDecDigits n)

/-- Numeric value of one decimal digit character. -/
def decVal (c : Char) : Nat := c.toNat - 48

/-- Read a decimal digit list back into a number (left inverse used to prove
that minted ref strings are pairwise distinct). -/
def decOfDigits (l : List Char) : Nat := l.foldl (fun a c => 10 * a + decVal c) 0

/-! ### DOM model

The snapshot engine runs inside the page against the live DOM.  The DOM is a
collaborator of the code under verification, so it is modelled: an element
node carries its tag name, its attribute list, the concatenated text of its
own direct text-node children, and its element children.  `textContent` of a
node is the concatenation of all descendant text (the model places each
node's own text before its children's text; the inclusion decisions of the
engine only inspect emptiness/truncation of this string). -/

mutual
inductive DomNode where
  | mk (tagName : String) (attrs : List (String × String)) (ownText : String)
       (children : DomForest)
inductive DomForest where
  | nil
  | cons (hd : DomNode) (tl : DomForest)
end

mutual
/-- `el.textContent`: concatenated descendant text. -/
def textContent : DomNode → String
  | .mk _ _ own children => own ++ textContentForest children
def textContentForest : DomForest → String
  | .nil => ""
  | .cons e es => textContent e ++ textContentForest es
end

/-- `el.getAttribute(name)`: `none` models the JS `null` for an absent
attribute. -/
def getAttr (attrs : List (String × String)) (a : String) : Option String :=
  (attrs.find? (fun p => p.1 == a)).map (fun p => p.2)

/-- JS string truthiness: the empty string is falsy. -/
def strTruthy (s : String) : Bool := !(s == "")

/-- JS truthiness of a nullable string (`null`/`undefined` and `""` falsy). -/
def optStrTruthy : Option String → Bool
  | none => false
  | some s => strTruthy s

/-- JS `a || b` for a nullable string `a` with string fallback `b`. -/
def jsOrS (a : Option String) (b : String) : String :=
  match a with
  | none => b
  | some s => if s == "" then b else s

/-- JS `x || undefined` for a nullable string `x`. -/
def orUndef : Option String → Option String
  | none => none
  | some s => if s == "" then none else some s

def domTag : DomNode → String
  | .mk t _ _ _ => t

def domAttrs : DomNode → List (String × String)
  | .mk _ a _ _ => a

def domChildren : DomNode → DomForest
  | .mk _ _ _ c => c

/-- DOM model: the `el.id` property ( `""` when the attribute is absent). -/
def propId (el : DomNode) : String := (getAttr (domAttrs el) "id").getD ""

/-- DOM model: the `el.className` property (`""` when absent). -/
def propClassName (el : DomNode) : String := (getAttr (domAttrs el) "class").getD ""

/-- DOM model of the IDL `type` property read by
`(el as HTMLInputElement).type`: inputs default to `"text"`, buttons to
`"submit"`, selects report their mode, textareas report `"textarea"`,
anchors reflect the attribute, every other element has no such property
(JS `undefined`). -/
def propType (el : DomNode) : Option String :=
  let t := jsToLower (domTag el)
  if t == "input" then some ((getAttr (domAttrs el) "type").getD "text")
  else if t == "button" then some ((getAttr (domAttrs el) "type").getD "submit")
  else if t == "select" then
    some (if (getAttr (domAttrs el) "multiple").isSome then "select-multiple" else "select-one")
  else if t == "textarea" then some "textarea"
  else if t == "a" then getAttr (domAttrs el) "type"
  else none

/-- DOM model of the IDL `value` property read by
`(el as HTMLInputElement).value`: form controls reflect their value
attribute (defaulting to `""`), other elements have no such property. -/
def propValue (el : DomNode) : Option String :=
  let t := jsToLower (domTag el)
  if t == "input" || t == "button" || t == "textarea" || t == "option" then
    some ((getAttr (domAttrs el) "value").getD "")
  else if t == "select" then some ""
  else none

/-! ### Snapshot engine (from `ElectronBrowserManager.snapshot` in
`src/index.ts`) -/

/-- One row of the snapshot output (`ElementSnapshotWithSelector`). -/
structure SnapElement where
  ref : String
  role : String
  name : String
  tag : String
  depth : Nat
  clickable : Bool
  type : Option String
  value : Option String
  selector : String
  attrId : Option String
  attrClassName : Option String
  attrName : Option String
  attrPlaceholder : Option String
deriving DecidableEq, Repr

/-- The fixed inclusion tag set of `processElement`. -/
def fixedTags : List String :=
  ["button", "input", "select", "textarea", "a",
   "h1", "h2", "h3", "h4", "h5", "h6", "label", "option"]

/-- The clickable tag set of `processElement`. -/
def clickTags : List String := ["button", "a", "input", "select", "textarea"]

/-- Minted reference identifier: `` `e${n}` ``. -/
def mintRef (n : Nat) : String := "e" ++ natToDec n

/-- The attribute priority list scanned by `getSelector`. -/
def selectorAttrs : List String := ["name", "type", "placeholder", "aria-label"]

/-- The attribute-selector suffix loop of `getSelector`: first attribute of
the priority list with a truthy value wins. -/
def firstAttrSel (el : DomNode) : List String → String
  | [] => ""
  | a :: rest =>
    match getAttr (domAttrs el) a with
    | none => firstAttrSel el rest
    | some v =>
      if v == "" then firstAttrSel el rest
      else "[" ++ a ++ "=\"" ++ v ++ "\"]"

/-- `getSelector` from the snapshot engine: id selector if the element has an
id, otherwise tag name plus class list plus the first discriminating
attribute. -/
def getSelector (el : DomNode) : String :=
  if strTruthy (propId el) then "#" ++ propId el
  else
    let tagName := jsToLower (domTag el)
    let withClass :=
      if strTruthy (propClassName el) then
        let classes := (jsSplitChar (propClassName el) ' ').filter (fun c => strTruthy (jsTrim c))
        if classes.length > 0 then tagName ++ "." ++ String.intercalate "." classes
        else tagName
      else tagName
    withClass ++ firstAttrSel el selectorAttrs

/-- The row recorded for one included element at a given depth and counter. -/
def mkSnapElement (el : DomNode) (depth ctr : Nat) : SnapElement :=
  let tagName := jsToLower (domTag el)
  let text := (jsTrim (textContent el)).take 100
  { ref := mintRef ctr
    role := jsOrS (getAttr (domAttrs el) "role") (jsOrS (propType el) tagName)
    name := text
    tag := tagName
    depth := depth
    clickable :=
      clickTags.contains tagName
        || (getAttr (domAttrs el) "onclick").isSome
        || (getAttr (domAttrs el) "role" == some "button")
    type := orUndef (propType el)
    value := orUndef (propValue el)
    selector := getSelector el
    attrId := orUndef (some (propId el))
    attrClassName := orUndef (some (propClassName el))
    attrName := orUndef (getAttr (domAttrs el) "name")
    attrPlaceholder := orUndef (getAttr (domAttrs el) "placeholder") }

mutual
/-- `processElement` from the snapshot engine: pre-order walk; a node is
captured when its trimmed, truncated text is non-empty or its tag is in the
fixed set; each captured node mints the next counter value; children are
walked regardless.  Returns the captured rows and the final counter. -/
def processElement (el : DomNode) (depth ctr : Nat) : List SnapElement × Nat :=
  match el with
  | .mk tag attrs own children =>
    let tagName := jsToLower tag
    let text := (jsTrim (textContent (.mk tag attrs own children))).take 100
    if strTruthy text || fixedTags.contains tagName then
      let r := processForest children (depth + 1) (ctr + 1)
      (mkSnapElement (.mk tag attrs own children) depth ctr :: r.1, r.2)
    else
      processForest children (depth + 1) ctr
termination_by structural el
/-- The `Array.from(el.children).forEach` loop of `processElement`. -/
def processForest (f : DomForest) (depth ctr : Nat) : List SnapElement × Nat :=
  match f with
  | .nil => ([], ctr)
  | .cons e es =>
    let r1 := processElement e depth ctr
    let r2 := processForest es depth r1.2
    (r1.1 ++ r2.1, r2.2)
termination_by structural f
end

/-- The element rows of one snapshot invocation on a page whose
`document.body` is `body`: the page-side evaluate starts at the body with
depth `0` and a local counter at the base value `100`. -/
def snapshotElements (body : DomNode) : List SnapElement :=
  (processElement body 0 100).1

/-! ### Session state and handlers (from `ElectronBrowserManager` in
`src/index.ts`)

The Playwright page is a collaborator: it is modelled by its observable
title and url, and every call the handlers issue against it is recorded in
an action trace, so that "no action was issued against the page" is a
statement about the trace.  The manager fields not consulted by any claim
(screenshot directory, window list, network and console logs) are omitted. -/

/-- Observable state of the live page collaborator. -/
structure Page where
  title : String
  url : String
deriving DecidableEq, Repr

/-- The manager state the claims consult: the active page, the Ref Map
(a JS `Map` with string keys, modelled as an association list with pairwise
distinct keys, looked up by first match), and the ref counter. -/
structure Session where
  currentPage : Option Page
  elementRefMap : List (String × String)
  refCounter : Nat
deriving DecidableEq, Repr

/-- `this.elementRefMap.get(ref)`. -/
def resolveRef (s : Session) (ref : String) : Option String :=
  (s.elementRefMap.find? (fun p => p.1 == ref)).map (fun p => p.2)

/-- A JS exception: `Error` for `throw new Error(msg)`, `typeError` for the
runtime TypeError raised by a property access on `null` (the non-null
assertion `!` is erased at runtime). -/
inductive JsError where
  | error (msg : String)
  | typeError (msg : String)
deriving DecidableEq, Repr

/-- The options object `takeScreenshot` passes to the engine. -/
structure ScreenshotOpts where
  path : String
  fullPage : Bool
  type : String
deriving DecidableEq, Repr

/-- One call issued against the automation engine. -/
inductive PageAction where
  | goto (url : String)
  | goBack
  | click (selector : String)
  | fill (selector text : String)
  | typeSlow (selector text : String)
  | press (selector key : String)
  | setChecked (selector : String) (checked : Bool)
  | selectOpt (selector : String) (values : List String)
  | hover (selector : String)
  | dragAndDrop (startSel endSel : String)
  | keyboardPress (key : String)
  | waitForText (text : String)
  | waitForTextGone (text : String)
  | waitTimeout (ms : Rat)
  | screenshot (scope : Option String) (opts : ScreenshotOpts)
  | setInputFiles (paths : List String)
  | armDialogHandler (accept : Bool) (promptText : String)
  | setViewportSize (width height : Rat)
deriving DecidableEq, Repr

/-- A content block of a `ToolResult`. -/
structure ContentBlock where
  type : String
  text : String
deriving DecidableEq, Repr

/-- The normalized handler output shape. -/
structure ToolResult where
  content : List ContentBlock
deriving DecidableEq, Repr

/-- The `{ content: [{ type: 'text', text }] }` value every handler builds. -/
def textResult (t : String) : ToolResult := ⟨[⟨"text", t⟩]⟩

/-- JS truthiness of an optional boolean (`undefined` and `false` falsy). -/
def optBoolTruthy (b : Option Bool) : Bool := b == some true

/-- JS truthiness of an optional number (`undefined`, `0` and `NaN` falsy;
`NaN` does not arise for the finite rationals modelled here). -/
def optNumTruthy : Option Rat → Bool
  | none => false
  | some q => !(q == 0)

/-- Outcome of a handler that does not change the session: the result or the
exception, paired with the trace of page actions it issued. -/
def HandlerOut : Type := Except JsError ToolResult × List PageAction

/-- `ElectronBrowserManager.navigate`: empty url reports the current page,
non-empty url loads it.  There is no initialization guard in this handler:
with no active page the non-null assertions dereference `null` and raise a
TypeError.  `gotoPage` models the engine: the page state observed after
`goto(url)` completes. -/
def navigate (s : Session) (gotoPage : String → Page) (url : String) : HandlerOut :=
  if url == "" then
    match s.currentPage with
    | none => (.error (.typeError "Cannot read properties of null"), [])
    | some p =>
      (.ok (textResult ("Navigated to: " ++ p.title ++ "\nURL: " ++ p.url ++ "\nStatus: success")), [])
  else
    match s.currentPage with
    | none => (.error (.typeError "Cannot read properties of null"), [])
    | some _ =>
      let p := gotoPage url
      (.ok (textResult ("Navigated to: " ++ p.title ++ "\nURL: " ++ p.url ++ "\nStatus: success")),
       [.goto url])

/-- `ElectronBrowserManager.navigateBack`; `backPage` models the page state
observed after `goBack()` completes. -/
def navigateBack (s : Session) (backPage : Page) : HandlerOut :=
  match s.currentPage with
  | none => (.error (.error "Browser not initialized"), [])
  | some _ =>
    (.ok (textResult ("Navigated back to: " ++ backPage.title ++ "\nURL: " ++ backPage.url)),
     [.goBack])

/-- `ElectronBrowserManager.click`. -/
def click (s : Session) (element ref : String) : HandlerOut :=
  match s.currentPage with
  | none => (.error (.error "Browser not initialized"), [])
  | some _ =>
    match resolveRef s ref with
    | none =>
      (.error (.error ("Element reference " ++ ref ++ " not found. Please take a snapshot first.")),
       [])
    | some selector =>
      (.ok (textResult ("Clicked on " ++ element ++ " (ref: " ++ ref ++ ")")), [.click selector])

/-- `ElectronBrowserManager.type`. -/
def type (s : Session) (element ref text : String) (slowly submit : Option Bool) : HandlerOut :=
  match s.currentPage with
  | none => (.error (.error "Browser not initialized"), [])
  | some _ =>
    match resolveRef s ref with
    | none =>
      (.error (.error ("Element reference " ++ ref ++ " not found. Please take a snapshot first.")),
       [])
    | some selector =>
      let typeActs :=
        if optBoolTruthy slowly then [PageAction.typeSlow selector text]
        else [PageAction.fill selector text]
      let submitActs := if optBoolTruthy submit then [PageAction.press selector "Enter"] else []
      (.ok (textResult ("Typed \"" ++ text ++ "\" into " ++ element ++ " (ref: " ++ ref ++ ")")),
       typeActs ++ submitActs)

/-- `ElectronBrowserManager.pressKey`. -/
def pressKey (s : Session) (key : String) : HandlerOut :=
  match s.currentPage with
  | none => (.error (.error "Browser not initialized"), [])
  | some _ => (.ok (textResult ("Pressed key: " ++ key)), [.keyboardPress key])

/-- One entry of the `fill_form` fields array. -/
structure FormField where
  name : String
  type : String
  ref : String
  value : String
deriving DecidableEq, Repr

/-- The field loop of `ElectronBrowserManager.fillForm`: earlier fields have
already issued their page actions when a later ref fails to resolve. -/
def fillFormGo (s : Session) :
    List FormField → List String → List PageAction → HandlerOut
  | [], results, acts =>
    (.ok (textResult ("Filled form fields:\n" ++ String.intercalate "\n" results.reverse)),
     acts.reverse)
  | f :: rest, results, acts =>
    match resolveRef s f.ref with
    | none =>
      (.error (.error ("Element reference " ++ f.ref ++ " not found for field " ++ f.name)),
       acts.reverse)
    | some selector =>
      if f.type == "checkbox" then
        let isChecked := f.value == "true"
        fillFormGo s rest
          ((f.name ++ ": " ++ (if isChecked then "checked" else "unchecked")) :: results)
          (.setChecked selector isChecked :: acts)
      else
        fillFormGo s rest ((f.name ++ ": \"" ++ f.value ++ "\"") :: results)
          (.fill selector f.value :: acts)

/-- `ElectronBrowserManager.fillForm`. -/
def fillForm (s : Session) (fields : List FormField) : HandlerOut :=
  match s.currentPage with
  | none => (.error (.error "Browser not initialized"), [])
  | some _ => fillFormGo s fields [] []

/-- `ElectronBrowserManager.selectOption`. -/
def selectOption (s : Session) (element ref : String) (values : List String) : HandlerOut :=
  match s.currentPage with
  | none => (.error (.error "Browser not initialized"), [])
  | some _ =>
    match resolveRef s ref with
    | none => (.error (.error ("Element reference " ++ ref ++ " not found")), [])
    | some selector =>
      (.ok (textResult ("Selected options in " ++ element ++ ": " ++ String.intercalate ", " values)),
       [.selectOpt selector values])

/-- `ElectronBrowserManager.hover`. -/
def hover (s : Session) (element ref : String) : HandlerOut :=
  match s.currentPage with
  | none => (.error (.error "Browser not initialized"), [])
  | some _ =>
    match resolveRef s ref with
    | none => (.error (.error ("Element reference " ++ ref ++ " not found")), [])
    | some selector =>
      (.ok (textResult ("Hovered over " ++ element ++ " (ref: " ++ ref ++ ")")), [.hover selector])

/-- `ElectronBrowserManager.drag`: both refs are read, the start ref is
checked first. -/
def drag (s : Session) (startElement startRef endElement endRef : String) : HandlerOut :=
  match s.currentPage with
  | none => (.error (.error "Browser not initialized"), [])
  | some _ =>
    match resolveRef s startRef with
    | none => (.error (.error ("Start element reference " ++ startRef ++ " not found")), [])
    | some startSel =>
      match resolveRef s endRef with
      | none => (.error (.error ("End element reference " ++ endRef ++ " not found")), [])
      | some endSel =>
        (.ok (textResult ("Dragged " ++ startElement ++ " to " ++ endElement)),
         [.dragAndDrop startSel endSel])

/-- `ElectronBrowserManager.snapshot`: after the guard the Ref Map is
cleared, the counter reset to the base value, the page-side walk runs from
`document.body` (absent body produces no rows), and the Ref Map is then
populated with `ref → selector` for every captured row.  Returns the rows
and the updated session. -/
def snapshot (s : Session) (body : Option DomNode) :
    Except JsError (List SnapElement × Session) :=
  match s.currentPage with
  | none => .error (.error "Browser not initialized")
  | some _ =>
    let elements :=
      match body with
      | some b => (processElement b 0 100).1
      | none => []
    .ok (elements,
         { s with elementRefMap := elements.map (fun e => (e.ref, e.selector)),
                  refCounter := 100 })

/-- The execution scope `ElectronBrowserManager.evaluate` chooses for the
supplied script (the script run itself is the engine collaborator). -/
inductive EvalScope where
  | page (fn : String)
  | element (selector : String) (fn : String)
deriving DecidableEq, Repr

/-- `ElectronBrowserManager.evaluate`: element scope exactly when both the
`element` and `ref` arguments are truthy and the ref resolves; any failure
inside the try block is re-thrown with the `JavaScript evaluation failed`
prefix. -/
def evaluate (s : Session) (fn : String) (element ref : Option String) :
    Except JsError EvalScope :=
  match s.currentPage with
  | none => .error (.error "Browser not initialized")
  | some _ =>
    if optStrTruthy element && optStrTruthy ref then
      match resolveRef s (ref.getD "") with
      | none =>
        .error (.error ("JavaScript evaluation failed: Element reference " ++ ref.getD ""
          ++ " not found"))
      | some selector => .ok (.element selector fn)
    else .ok (.page fn)

/-- `ElectronBrowserManager.waitFor`: the three conditions are tested by JS
truthiness in order; with no truthy condition the handler throws. -/
def waitFor (s : Session) (text textGone : Option String) (time : Option Rat) : HandlerOut :=
  match s.currentPage with
  | none => (.error (.error "Browser not initialized"), [])
  | some _ =>
    if optStrTruthy text then
      (.ok (textResult ("Waited for text: \"" ++ text.getD "" ++ "\"")),
       [.waitForText (text.getD "")])
    else if optStrTruthy textGone then
      (.ok (textResult ("Waited for text to disappear: \"" ++ textGone.getD "" ++ "\"")),
       [.waitForTextGone (textGone.getD "")])
    else if optNumTruthy time then
      (.ok (textResult ("Waited for " ++ toString (time.getD 0) ++ " seconds")),
       [.waitTimeout (time.getD 0 * 1000)])
    else (.error (.error "No wait condition specified"), [])

/-- `ElectronBrowserManager.takeScreenshot`: `dir` is the manager's fixed
temporary screenshot directory and `timestamp` the formatted clock reading
(both collaborators); a truthy `element` and `ref` pair selects an
element-scoped capture through the Ref Map, anything else captures the
whole page. -/
def takeScreenshot (s : Session) (dir timestamp : String)
    (filename element ref : Option String) (fullPage : Option Bool)
    (ptype : Option String) : HandlerOut :=
  match s.currentPage with
  | none => (.error (.error "Browser not initialized"), [])
  | some _ =>
    let fname := jsOrS filename ("screenshot-" ++ timestamp ++ "." ++ jsOrS ptype "png")
    let screenshotPath := dir ++ "/" ++ fname
    let screenshotType := if ptype == some "jpeg" then "jpeg" else "png"
    let opts : ScreenshotOpts :=
      { path := screenshotPath, fullPage := optBoolTruthy fullPage, type := screenshotType }
    if optStrTruthy element && optStrTruthy ref then
      match resolveRef s (ref.getD "") with
      | none => (.error (.error ("Element reference " ++ ref.getD "" ++ " not found")), [])
      | some selector =>
        (.ok (textResult ("Screenshot saved to: " ++ screenshotPath)),
         [.screenshot (some selector) opts])
    else
      (.ok (textResult ("Screenshot saved to: " ++ screenshotPath)),
       [.screenshot none opts])

/-- `ElectronBrowserManager.fileUpload`: `fileInputCount` models how many
file inputs the page-side locator finds (a page collaborator). -/
def fileUpload (s : Session) (fileInputCount : Nat) (paths : List String) : HandlerOut :=
  match s.currentPage with
  | none => (.error (.error "Browser not initialized"), [])
  | some _ =>
    if fileInputCount == 0 then
      (.error (.error "No file input elements found on the page"), [])
    else
      (.ok (textResult ("Uploaded files: " ++ String.intercalate ", " paths)),
       [.setInputFiles paths])

/-- `ElectronBrowserManager.handleDialog`: arms the one-shot dialog
responder (`dialog.accept(params.promptText || '')` on a later event). -/
def handleDialog (s : Session) (accept : Bool) (promptText : Option String) : HandlerOut :=
  match s.currentPage with
  | none => (.error (.error "Browser not initialized"), [])
  | some _ =>
    (.ok (textResult ("Dialog handler set: " ++ (if accept then "accept" else "dismiss"))),
     [.armDialogHandler accept (jsOrS promptText "")])

/-- `ElectronBrowserManager.resize`. -/
def resize (s : Session) (width height : Rat) : HandlerOut :=
  match s.currentPage with
  | none => (.error (.error "Browser not initialized"), [])
  | some _ =>
    (.ok (textResult ("Resized browser to " ++ toString width ++ "x" ++ toString height)),
     [.setViewportSize width height])

/-! ### Argument schemas and the tool dispatcher

From `tools-registry` (the zod schemas and `TOOL_REGISTRY`) and
`ElectronMCPServer.setupToolHandlers`.  The zod library is a collaborator:
its validation of the schema subset the registry uses (objects of required
and optional fields whose values are strings, numbers, booleans, string
enums, string arrays, or arrays of flat string-field objects) is modelled
below.  A raw invocation argument is an `Option Json`: `none` is the absent
(`undefined`) arguments field. -/

/-- A JSON value. -/
inductive Json where
  | null
  | bool (b : Bool)
  | num (q : Rat)
  | str (s : String)
  | arr (elems : List Json)
  | obj (fields : List (String × Json))

/-- The zod name of a JSON value shape, as used in invalid-type issues. -/
def jsonTypeName : Json → String
  | .null => "null"
  | .bool _ => "boolean"
  | .num _ => "number"
  | .str _ => "string"
  | .arr _ => "array"
  | .obj _ => "object"

/-- One zod issue: the path of the violated field and its message. -/
structure ZodIssue where
  path : List String
  message : String
deriving DecidableEq, Repr

/-- Primitive field shapes used by the registry schemas. -/
inductive ZPrim where
  | zstring
  | znumber
  | zboolean
  | zenum (allowed : List String)
deriving DecidableEq, Repr

/-- Field shapes used by the registry schemas. -/
inductive ZField where
  | prim (p : ZPrim)
  | arrayPrim (p : ZPrim)
  | arrayObj (fields : List (String × ZPrim × Bool))
deriving DecidableEq, Repr

/-- A registry schema: `z.object(...)` with named fields, each required or
optional. -/
structure ZObjSchema where
  fields : List (String × ZField × Bool)
deriving DecidableEq, Repr

/-- Key lookup in a JSON object (a present `null` is not `undefined`). -/
def jsonLookup (kvs : List (String × Json)) (k : String) : Option Json :=
  (kvs.find? (fun p => p.1 == k)).map (fun p => p.2)

/-- Check one primitive field shape; empty issue list means success. -/
def zcheckPrim (p : ZPrim) (j : Json) (path : List String) : List ZodIssue :=
  match p, j with
  | .zstring, .str _ => []
  | .znumber, .num _ => []
  | .zboolean, .bool _ => []
  | .zenum allowed, .str v =>
    if allowed.contains v then [] else [⟨path, "Invalid enum value"⟩]
  | .zstring, other => [⟨path, "Expected string, received " ++ jsonTypeName other⟩]
  | .znumber, other => [⟨path, "Expected number, received " ++ jsonTypeName other⟩]
  | .zboolean, other => [⟨path, "Expected boolean, received " ++ jsonTypeName other⟩]
  | .zenum _, other => [⟨path, "Expected string, received " ++ jsonTypeName other⟩]

/-- Check the elements of a primitive array, indexing the paths. -/
def zcheckPrimList (p : ZPrim) : List Json → List String → Nat → List ZodIssue
  | [], _, _ => []
  | x :: xs, path, i => zcheckPrim p x (path ++ [natToDec i]) ++ zcheckPrimList p xs path (i + 1)

/-- Check flat object fields (each field a primitive shape). -/
def zcheckFlatFields : List (String × ZPrim × Bool) → List (String × Json) → List String →
    List ZodIssue
  | [], _, _ => []
  | (nm, p, opt) :: rest, kvs, path =>
    (match jsonLookup kvs nm with
     | none => if opt then [] else [⟨path ++ [nm], "Required"⟩]
     | some v => zcheckPrim p v (path ++ [nm]))
      ++ zcheckFlatFields rest kvs path

/-- Check the elements of an object array, indexing the paths. -/
def zcheckObjList (fields : List (String × ZPrim × Bool)) :
    List Json → List String → Nat → List ZodIssue
  | [], _, _ => []
  | x :: xs, path, i =>
    (match x with
     | .obj kvs => zcheckFlatFields fields kvs (path ++ [natToDec i])
     | other => [⟨path ++ [natToDec i], "Expected object, received " ++ jsonTypeName other⟩])
      ++ zcheckObjList fields xs path (i + 1)

/-- Check one field shape. -/
def zcheckField (f : ZField) (j : Json) (path : List String) : List ZodIssue :=
  match f with
  | .prim p => zcheckPrim p j path
  | .arrayPrim p =>
    match j with
    | .arr xs => zcheckPrimList p xs path 0
    | other => [⟨path, "Expected array, received " ++ jsonTypeName other⟩]
  | .arrayObj fields =>
    match j with
    | .arr xs => zcheckObjList fields xs path 0
    | other => [⟨path, "Expected array, received " ++ jsonTypeName other⟩]

/-- Check the named fields of an object schema against a JSON object. -/
def zcheckObjFields : List (String × ZField × Bool) → List (String × Json) → List ZodIssue
  | [], _ => []
  | (nm, f, opt) :: rest, kvs =>
    (match jsonLookup kvs nm with
     | none => if opt then [] else [⟨[nm], "Required"⟩]
     | some v => zcheckField f v [nm])
      ++ zcheckObjFields rest kvs

/-- `schema.parse(v)` for a registry schema: the issue list is empty exactly
when parsing succeeds; `v = none` is parsing `undefined`, which zod rejects
at the root with a `Required` issue even for `z.object(\x7b\x7d)`. -/
def zparseIssues (sch : ZObjSchema) : Option Json → List ZodIssue
  | none => [⟨[], "Required"⟩]
  | some j =>
    match j with
    | .obj kvs => zcheckObjFields sch.fields kvs
    | other => [⟨[], "Expected object, received " ++ jsonTypeName other⟩]

/-- `NavigateSchema`. -/
def NavigateSchema : ZObjSchema := ⟨[("url", .prim .zstring, false)]⟩

/-- `ClickSchema`. -/
def ClickSchema : ZObjSchema :=
  ⟨[("element", .prim .zstring, false), ("ref", .prim .zstring, false)]⟩

/-- `TypeSchema`. -/
def TypeSchema : ZObjSchema :=
  ⟨[("element", .prim .zstring, false), ("ref", .prim .zstring, false),
    ("text", .prim .zstring, false), ("slowly", .prim .zboolean, true),
    ("submit", .prim .zboolean, true)]⟩

/-- `PressKeySchema`. -/
def PressKeySchema : ZObjSchema := ⟨[("key", .prim .zstring, false)]⟩

/-- `FillFormSchema`. -/
def FillFormSchema : ZObjSchema :=
  ⟨[("fields",
     .arrayObj [("name", .zstring, false), ("type", .zstring, false),
                ("ref", .zstring, false), ("value", .zstring, false)],
     false)]⟩

/-- `SelectOptionSchema`. -/
def SelectOptionSchema : ZObjSchema :=
  ⟨[("element", .prim .zstring, false), ("ref", .prim .zstring, false),
    ("values", .arrayPrim .zstring, false)]⟩

/-- `HoverSchema`. -/
def HoverSchema : ZObjSchema :=
  ⟨[("element", .prim .zstring, false), ("ref", .prim .zstring, false)]⟩

/-- `DragSchema`. -/
def DragSchema : ZObjSchema :=
  ⟨[("startElement", .prim .zstring, false), ("startRef", .prim .zstring, false),
    ("endElement", .prim .zstring, false), ("endRef", .prim .zstring, false)]⟩

/-- `TakeScreenshotSchema`. -/
def TakeScreenshotSchema : ZObjSchema :=
  ⟨[("filename", .prim .zstring, true), ("element", .prim .zstring, true),
    ("ref", .prim .zstring, true), ("fullPage", .prim .zboolean, true),
    ("type", .prim (.zenum ["png", "jpeg"]), true)]⟩

/-- `EvaluateSchema`. -/
def EvaluateSchema : ZObjSchema :=
  ⟨[("function", .prim .zstring, false), ("element", .prim .zstring, true),
    ("ref", .prim .zstring, true)]⟩

/-- `FileUploadSchema`. -/
def FileUploadSchema : ZObjSchema := ⟨[("paths", .arrayPrim .zstring, false)]⟩

/-- `ManageTabsSchema`. -/
def ManageTabsSchema : ZObjSchema :=
  ⟨[("action", .prim (.zenum ["list", "new", "close", "select"]), false),
    ("index", .prim .znumber, true)]⟩

/-- `HandleDialogSchema`. -/
def HandleDialogSchema : ZObjSchema :=
  ⟨[("accept", .prim .zboolean, false), ("promptText", .prim .zstring, true)]⟩

/-- `WaitForSchema`. -/
def WaitForSchema : ZObjSchema :=
  ⟨[("text", .prim .zstring, true), ("textGone", .prim .zstring, true),
    ("time", .prim .znumber, true)]⟩

/-- `ResizeSchema`. -/
def ResizeSchema : ZObjSchema :=
  ⟨[("width", .prim .znumber, false), ("height", .prim .znumber, false)]⟩

/-- `z.object(\x7b\x7d)`: the empty-object schema. -/
def EmptySchema : ZObjSchema := ⟨[]⟩

/-- `TOOL_REGISTRY`: the operation names bound to their argument schemas
(descriptions omitted; the handlers are the functions embedded above). -/
def TOOL_REGISTRY : List (String × ZObjSchema) :=
  [("browser_navigate", NavigateSchema),
   ("browser_navigate_back", EmptySchema),
   ("browser_click", ClickSchema),
   ("browser_type", TypeSchema),
   ("browser_press_key", PressKeySchema),
   ("browser_fill_form", FillFormSchema),
   ("browser_select_option", SelectOptionSchema),
   ("browser_hover", HoverSchema),
   ("browser_drag", DragSchema),
   ("browser_snapshot", EmptySchema),
   ("browser_take_screenshot", TakeScreenshotSchema),
   ("browser_evaluate", EvaluateSchema),
   ("browser_file_upload", FileUploadSchema),
   ("browser_tabs", ManageTabsSchema),
   ("browser_handle_dialog", HandleDialogSchema),
   ("browser_wait_for", WaitForSchema),
   ("browser_resize", ResizeSchema),
   ("browser_close", EmptySchema),
   ("browser_network_requests", EmptySchema),
   ("browser_console_messages", EmptySchema)]

/-- `isToolName`: key membership in the registry. -/
def isToolName (name : String) : Bool := TOOL_REGISTRY.any (fun p => p.1 == name)

/-- Registry lookup of the argument schema (`getTool(name).schema`). -/
def getToolSchema (name : String) : Option ZObjSchema :=
  (TOOL_REGISTRY.find? (fun p => p.1 == name)).map (fun p => p.2)

/-- The protocol error codes the dispatcher assigns. -/
inductive McpErrorCode where
  | methodNotFound
  | internalError
deriving DecidableEq, Repr

/-- Model of the `ZodError.message` the catch clause embeds into the wrapped
error: a rendering of the issue list in which every issue contributes its
field path and message. -/
def renderIssue (i : ZodIssue) : String :=
  if i.path.isEmpty then i.message else String.intercalate "." i.path ++ ": " ++ i.message

/-- Rendering of a whole issue list. -/
def renderIssues (l : List ZodIssue) : String :=
  String.intercalate "; " (l.map renderIssue)

/-- How far one `tools/call` request gets through the dispatcher of
`ElectronMCPServer.setupToolHandlers` before a handler would run. -/
inductive DispatchStep where
  | unknownTool (message : String)
  | validationFailed (message : String)
  | invokeHandler (name : String) (validatedArgs : Json)

/-- The dispatcher up to handler invocation, following the source order:
an unregistered name throws `McpError(MethodNotFound, ...)`, which the catch
clause rethrows unchanged (`error instanceof McpError`); otherwise the
schema is applied twice, first to `args ?? \x7b\x7d` and then to the raw
`args`, and a `ZodError` from either parse is caught by the catch clause and
wrapped as `McpError(ErrorCode.InternalError, 'Tool execution failed: ...')`;
with both parses clean the handler is invoked on the first parse's value. -/
def dispatchStep (name : String) (args : Option Json) : DispatchStep :=
  match getToolSchema name with
  | none => .unknownTool ("Unknown tool: " ++ name)
  | some schema =>
    match zparseIssues schema (some (args.getD (Json.obj []))) with
    | i :: is => .validationFailed ("Tool execution failed: " ++ renderIssues (i :: is))
    | [] =>
      match zparseIssues schema args with
      | i :: is => .validationFailed ("Tool execution failed: " ++ renderIssues (i :: is))
      | [] => .invokeHandler name (args.getD (Json.obj []))

/-- The protocol error code each failing dispatch step surfaces with. -/
def stepErrorCode : DispatchStep → Option McpErrorCode
  | .unknownTool _ => some .methodNotFound
  | .validationFailed _ => some .internalError
  | .invokeHandler _ _ => none

/-- The error code the catch clause assigns to an exception thrown by a
handler during execution (`McpError(ErrorCode.InternalError, ...)`). -/
def execFailureCode : McpErrorCode := .internalError

/-! ### Concrete fixtures for witnesses and counterexamples -/

/-- A button labelled `Submit`. -/
def submitButton : DomNode := .mk "BUTTON" [] "Submit" .nil

/-- A page body containing exactly the one `Submit` button and nothing
else. -/
def submitPage : DomNode := .mk "BODY" [] "" (.cons submitButton .nil)

/-- A concrete live page. -/
def pageA : Page := { title := "Demo", url := "app://index.html" }

/-- An initialized session with an empty Ref Map. -/
def sessionReady : Session :=
  { currentPage := some pageA, elementRefMap := [], refCounter := 100 }

/-- A session with no active page. -/
def sessionNoPage : Session :=
  { currentPage := none, elementRefMap := [], refCounter := 100 }

/-- Scaffolding for closed statements: the session a successful snapshot
leaves behind (the unchanged session on failure). -/
def sessionAfterSnapshot (s : Session) (body : Option DomNode) : Session :=
  match snapshot s body with
  | .ok r => r.2
  | .error _ => s

/-- The session after one snapshot of the Submit page. -/
def sessionSnap1 : Session := sessionAfterSnapshot sessionReady (some submitPage)

/-- The session after a second snapshot of the Submit page. -/
def sessionSnap2 : Session := sessionAfterSnapshot sessionSnap1 (some submitPage)

/-- Does the character list `pre` begin the character list `l`? -/
def charsStartWith : List Char → List Char → Bool
  | [], _ => true
  | _ :: _, [] => false
  | a :: as, b :: bs => a == b && charsStartWith as bs

/-- Does `needle` occur as a contiguous substring of `l`? -/
def charsContain (needle : List Char) : List Char → Bool
  | [] => charsStartWith needle []
  | c :: cs => charsStartWith needle (c :: cs) || charsContain needle cs

/-- Does a message mention a snapshot (used to formalize "telling the
caller to take a new snapshot")? -/
def mentionsSnapshot (msg : String) : Bool := charsContain ("snapshot".data) msg.data

/-! ## Theorems

Helper lemmas first, then one theorem per claim (with its witness or
counterexample where required). -/

set_option maxRecDepth 10000

theorem decVal_decDigitChar (n : Nat) (h : n < 10) : decVal (decDigitChar n) = n := by
  interval_cases n <;> rfl

theorem decOfDigits_append (l : List Char) (c : Char) :
    decOfDigits (l ++ [c]) = 10 * decOfDigits l + decVal c := by
  simp [decOfDigits, List.foldl_append]

theorem decOfDigits_natDecGo (fuel : Nat) :
    ∀ n, n ≤ fuel → decOfDigits (natDecGo fuel n) = n := by
  induction fuel with
  | zero =>
    intro n h
    have h0 : n = 0 := Nat.le_zero.mp h
    subst h0
    rfl
  | succ fuel ih =>
    intro n h
    rw [natDecGo]
    by_cases h10 : n < 10
    · simp only [h10, if_true]
      simpa [decOfDigits] using decVal_decDigitChar n h10
    · simp only [h10, if_false]
      rw [decOfDigits_append]
      have hdiv : n / 10 ≤ fuel := by
        have hlt : n / 10 < n := Nat.div_lt_self (by omega) (by omega)
        omega
      rw [ih _ hdiv, decVal_decDigitChar _ (Nat.mod_lt _ (by omega))]
      omega

theorem natToDec_inj : Function.Injective natToDec := by
  intro m n h
  have hd : natDecDigits m = natDecDigits n := congrArg String.data h
  have heq : decOfDigits (natDecDigits m) = decOfDigits (natDecDigits n) := by rw [hd]
  rw [natDecDigits, natDecDigits, decOfDigits_natDecGo m m le_rfl,
    decOfDigits_natDecGo n n le_rfl] at heq
  exact heq

theorem mintRef_inj : Function.Injective mintRef := by
  intro m n h
  apply natToDec_inj
  have hd := congrArg String.data h
  rw [mintRef, mintRef, String.data_append, String.data_append] at hd
  exact String.ext (List.append_cancel_left hd)

theorem range'_split (c m n : Nat) :
    List.range' c (m + n) = List.range' c m ++ List.range' (c + m) n := by
  have h := List.range'_append c m n 1
  rw [Nat.one_mul] at h
  rw [Nat.add_comm m n, ← h]

mutual
theorem processElement_refs (el : DomNode) (d c : Nat) :
    (processElement el d c).2 = c + (processElement el d c).1.length
      ∧ (processElement el d c).1.map SnapElement.ref
          = (List.range' c (processElement el d c).1.length).map mintRef := by
  match el with
  | .mk tag attrs own children =>
    have hf1 := processForest_refs children (d + 1) (c + 1)
    have hf0 := processForest_refs children (d + 1) c
    by_cases hinc :
        (strTruthy ((jsTrim (textContent (.mk tag attrs own children))).take 100)
          || fixedTags.contains (jsToLower tag)) = true
    · simp only [processElement, hinc, if_true]
      obtain ⟨h2, h1⟩ := hf1
      refine ⟨by simp [h2]; omega, ?_⟩
      simp only [List.map_cons, List.length_cons, h1, h2]
      rw [List.range'_succ]
      simp [mkSnapElement, mintRef]
    · simp only [processElement, hinc, if_false]
      exact hf0

theorem processForest_refs (f : DomForest) (d c : Nat) :
    (processForest f d c).2 = c + (processForest f d c).1.length
      ∧ (processForest f d c).1.map SnapElement.ref
          = (List.range' c (processForest f d c).1.length).map mintRef := by
  match f with
  | .nil => simp [processForest, List.range']
  | .cons e es =>
    have he := processElement_refs e d c
    have hes := processForest_refs es d (processElement e d c).2
    obtain ⟨he2, he1⟩ := he
    obtain ⟨hs2, hs1⟩ := hes
    simp only [processForest]
    constructor
    · simp only [List.length_append]
      omega
    · rw [he2] at hs1
      simp only [List.map_append, List.length_append, he1, hs1, he2]
      rw [range'_split, List.map_append]
end

/-- C3: within one snapshot invocation the minted ref identifiers, read in
the pre-order in which `processElement` captures elements, are exactly
`"e" ++ decimal` of consecutive integers starting at the base value 100
(one increment per captured element), and hence pairwise distinct: no ref
value is reused within one snapshot. -/
theorem C3_snapshot_refs (body : DomNode) :
    (snapshotElements body).map SnapElement.ref
        = (List.range' 100 (snapshotElements body).length).map mintRef
      ∧ ((snapshotElements body).map SnapElement.ref).Nodup := by
  obtain ⟨-, h⟩ := processElement_refs body 0 100
  refine ⟨h, ?_⟩
  rw [snapshotElements, h]
  exact List.Nodup.map mintRef_inj (List.nodup_range' 100 _)

/-- C2 counterexample: on the page whose body contains exactly one visible
button labelled `Submit`, the snapshot output has TWO element entries, not
one: the body itself is captured (its inherited text content `Submit` is
non-empty), takes the base ref `e100`, and the button entry gets `e101`,
not the base value. -/
theorem C2_counterexample :
    (snapshotElements submitPage).length = 2
      ∧ (snapshotElements submitPage).map (fun e => (e.tag, e.ref, e.clickable))
          = [("body", "e100", false), ("button", "e101", true)] := by
  exact ⟨rfl, rfl⟩

/-- C2 amended: snapshot on a page with one visible button labelled
`Submit` captures two entries — the body container (ref equal to the base
value `e100`, included because its text content inherits `Submit`) and the
button — and exactly one entry has `tag` `button`; that entry is clickable
and its ref is `e101`, the successor of the base value. -/
theorem C2_amended_submit_page :
    (snapshotElements submitPage).map (fun e => (e.tag, e.ref, e.name))
        = [("body", "e100", "Submit"), ("button", "e101", "Submit")]
      ∧ ((snapshotElements submitPage).filter (fun e => e.tag == "button")).map
          (fun e => (e.ref, e.clickable))
        = [("e101", true)] := by
  exact ⟨rfl, rfl⟩

theorem resolveRef_key_isSome (s : Session) (r : String)
    (h : r ∈ s.elementRefMap.map Prod.fst) : (resolveRef s r).isSome = true := by
  have hf : (s.elementRefMap.find? (fun p => p.1 == r)).isSome = true := by
    rw [List.find?_isSome]
    obtain ⟨p, hp, hpe⟩ := List.mem_map.mp h
    exact ⟨p, hp, by simp [hpe]⟩
  rw [resolveRef]
  cases hc : s.elementRefMap.find? (fun p => p.1 == r) with
  | none => rw [hc] at hf; simp at hf
  | some p => simp

theorem resolveRef_not_key (s : Session) (r : String)
    (h : r ∉ s.elementRefMap.map Prod.fst) : resolveRef s r = none := by
  rw [resolveRef, List.find?_eq_none.mpr]
  · rfl
  · intro p hp hbe
    exact h (List.mem_map.mpr ⟨p, hp, by simpa using hbe⟩)

theorem snapshot_ok_shape (s : Session) (b : Option DomNode)
    (el : List SnapElement) (s' : Session)
    (h : snapshot s b = .ok (el, s')) :
    s'.elementRefMap = el.map (fun e => (e.ref, e.selector)) := by
  cases hp : s.currentPage with
  | none =>
    rw [snapshot.eq_def, hp] at h
    exact absurd h (by simp)
  | some p =>
    rw [snapshot.eq_def, hp] at h
    have hpair := Except.ok.inj h
    injection hpair with he hs
    rw [← hs, ← he]

theorem resolveRef_none_iff (s : Session) (el : List SnapElement)
    (hm : s.elementRefMap = el.map (fun e => (e.ref, e.selector))) (r : String) :
    resolveRef s r = none ↔ r ∉ el.map SnapElement.ref := by
  have hkeys : s.elementRefMap.map Prod.fst = el.map SnapElement.ref := by
    rw [hm, List.map_map]
    rfl
  constructor
  · intro hn hr
    have hsome := resolveRef_key_isSome s r (by rw [hkeys]; exact hr)
    rw [hn] at hsome
    simp at hsome
  · intro hr
    exact resolveRef_not_key s r (by rw [hkeys]; exact hr)

/-- C4 counterexample: the Ref Map after snapshot N+1 again contains
`e100`, because the counter is reset to the same base value on every
snapshot.  Concretely: snapshot 1 on the Submit page mints `e100` and
`e101`; after snapshot 2 runs (same page), resolving the snapshot-1 ref
`e100` still succeeds — it does not yield absent. -/
theorem C4_counterexample :
    (snapshotElements submitPage).map SnapElement.ref = ["e100", "e101"]
      ∧ snapshot sessionReady (some submitPage)
          = .ok (snapshotElements submitPage, sessionSnap1)
      ∧ snapshot sessionSnap1 (some submitPage)
          = .ok (snapshotElements submitPage, sessionSnap2)
      ∧ resolveRef sessionSnap2 "e100" = some "body" := by
  exact ⟨rfl, rfl, rfl, rfl⟩

/-- C4 amended: every ref minted by snapshot N resolves successfully until
snapshot N+1 is taken; snapshot N+1 replaces the Ref Map wholesale with its
own bindings, so a ref from snapshot N afterwards resolves to absent
exactly when snapshot N+1 did not mint the same identifier (the counter
restarts at the base value, so identifiers generally recur across
snapshots). -/
theorem C4_amended_refmap (s s1 s2 : Session) (b1 b2 : Option DomNode)
    (el1 el2 : List SnapElement)
    (h1 : snapshot s b1 = .ok (el1, s1))
    (h2 : snapshot s1 b2 = .ok (el2, s2)) :
    (∀ e ∈ el1, (resolveRef s1 e.ref).isSome = true)
      ∧ s2.elementRefMap = el2.map (fun e => (e.ref, e.selector))
      ∧ (∀ r, resolveRef s2 r = none ↔ r ∉ el2.map SnapElement.ref) := by
  have hm1 := snapshot_ok_shape s b1 el1 s1 h1
  have hm2 := snapshot_ok_shape s1 b2 el2 s2 h2
  refine ⟨?_, hm2, fun r => resolveRef_none_iff s2 el2 hm2 r⟩
  intro e he
  apply resolveRef_key_isSome
  rw [hm1, List.map_map]
  exact List.mem_map.mpr ⟨e, he, rfl⟩

/-- C4 amended, witness: the amended statement instantiated at the two
concrete snapshots of the Submit page. -/
theorem C4_amended_refmap_witness :
    (∀ e ∈ snapshotElements submitPage, (resolveRef sessionSnap1 e.ref).isSome = true)
      ∧ sessionSnap2.elementRefMap
          = (snapshotElements submitPage).map (fun e => (e.ref, e.selector))
      ∧ (∀ r, resolveRef sessionSnap2 r = none
            ↔ r ∉ (snapshotElements submitPage).map SnapElement.ref) :=
  C4_amended_refmap sessionReady sessionSnap1 sessionSnap2
    (some submitPage) (some submitPage)
    (snapshotElements submitPage) (snapshotElements submitPage) rfl rfl

/-- C7 counterexample: the hover handler, invoked with a ref absent from
the Ref Map, fails with a reference-not-found error whose message does not
tell the caller to take a new snapshot (it does not mention a snapshot at
all), refuting the claim for the hover interaction operation; the click
message, by contrast, does mention it. -/
theorem C7_counterexample :
    hover sessionReady "Widget" "e999"
        = (.error (.error "Element reference e999 not found"), [])
      ∧ mentionsSnapshot "Element reference e999 not found" = false
      ∧ mentionsSnapshot
          "Element reference e999 not found. Please take a snapshot first." = true := by
  exact ⟨rfl, rfl, rfl⟩

/-- C7 amended: every interaction handler that receives an unresolved ref
(click, type, hover, select_option, drag, fill_form, element-scoped
take_screenshot, element-scoped evaluate) checks the Ref Map and fails
with a reference-not-found error naming the ref before issuing any page
action (empty action trace; none of these handlers mutates the session).
Click and type additionally tell the caller to take a snapshot first;
hover, select_option, drag, fill_form and take_screenshot only name the
missing reference (with Start/End or field qualifiers), and evaluate wraps
it with its `JavaScript evaluation failed` prefix. -/
theorem C7_amended_ref_not_found (s : Session) (p : Page) (hp : s.currentPage = some p)
    (ref : String) (h : resolveRef s ref = none)
    (el txt el2 ref2 fname : String) (slowly submit : Option Bool) (vals : List String) :
    click s el ref
        = (.error (.error ("Element reference " ++ ref
            ++ " not found. Please take a snapshot first.")), [])
      ∧ type s el ref txt slowly submit
        = (.error (.error ("Element reference " ++ ref
            ++ " not found. Please take a snapshot first.")), [])
      ∧ hover s el ref = (.error (.error ("Element reference " ++ ref ++ " not found")), [])
      ∧ selectOption s el ref vals
        = (.error (.error ("Element reference " ++ ref ++ " not found")), [])
      ∧ drag s el ref el2 ref2
        = (.error (.error ("Start element reference " ++ ref ++ " not found")), [])
      ∧ fillForm s [{ name := fname, type := txt, ref := ref, value := txt }]
        = (.error (.error ("Element reference " ++ ref ++ " not found for field " ++ fname)),
           [])
      ∧ (∀ e, strTruthy e = true → strTruthy ref = true →
          ∀ dir ts fname2 fullPage ptype,
            takeScreenshot s dir ts fname2 (some e) (some ref) fullPage ptype
              = (.error (.error ("Element reference " ++ ref ++ " not found")), []))
      ∧ (∀ e fn, strTruthy e = true → strTruthy ref = true →
          evaluate s fn (some e) (some ref)
            = .error (.error ("JavaScript evaluation failed: Element reference " ++ ref
                ++ " not found"))) := by
  refine ⟨?_, ?_, ?_, ?_, ?_, ?_, ?_, ?_⟩
  · rw [click.eq_def, hp, h]
  · rw [type.eq_def, hp, h]
  · rw [hover.eq_def, hp, h]
  · rw [selectOption.eq_def, hp, h]
  · rw [drag.eq_def, hp, h]
  · rw [fillForm.eq_def, hp]
    simp [fillFormGo.eq_def, h]
  · intro e he href dir ts fname2 fullPage ptype
    rw [takeScreenshot.eq_def, hp]
    simp only [optStrTruthy, he, href, Bool.and_self, if_true, Option.getD_some, h]
  · intro e fn he href
    rw [evaluate.eq_def, hp]
    simp only [optStrTruthy, he, href, Bool.and_self, if_true, Option.getD_some, h]

/-- C7 amended, witness: the amended statement instantiated at an
initialized session with an empty Ref Map and the unknown ref `e999`. -/
theorem C7_amended_witness :
    click sessionReady "Widget" "e999"
        = (.error (.error ("Element reference " ++ "e999"
            ++ " not found. Please take a snapshot first.")), [])
      ∧ type sessionReady "Widget" "e999" "hello" none none
        = (.error (.error ("Element reference " ++ "e999"
            ++ " not found. Please take a snapshot first.")), [])
      ∧ hover sessionReady "Widget" "e999"
        = (.error (.error ("Element reference " ++ "e999" ++ " not found")), [])
      ∧ selectOption sessionReady "Widget" "e999" ["a"]
        = (.error (.error ("Element reference " ++ "e999" ++ " not found")), [])
      ∧ drag sessionReady "Widget" "e999" "Other" "e1000"
        = (.error (.error ("Start element reference " ++ "e999" ++ " not found")), [])
      ∧ fillForm sessionReady [{ name := "field1", type := "hello", ref := "e999", value := "hello" }]
        = (.error (.error ("Element reference " ++ "e999" ++ " not found for field "
            ++ "field1")), [])
      ∧ takeScreenshot sessionReady "/tmp/electron-mcp" "2026-10-11T00-00-00-000Z" none
          (some "Widget") (some "e999") none none
        = (.error (.error ("Element reference " ++ "e999" ++ " not found")), [])
      ∧ evaluate sessionReady "1 + 1" (some "Widget") (some "e999")
        = .error (.error ("JavaScript evaluation failed: Element reference " ++ "e999"
            ++ " not found")) := by
  obtain ⟨h1, h2, h3, h4, h5, h6, h7, h8⟩ :=
    C7_amended_ref_not_found sessionReady pageA rfl "e999" rfl
      "Widget" "hello" "Other" "e1000" "field1" none none ["a"]
  exact ⟨h1, h2, h3, h4, h5, h6,
    h7 "Widget" rfl rfl "/tmp/electron-mcp" "2026-10-11T00-00-00-000Z" none none none,
    h8 "Widget" "1 + 1" rfl rfl⟩

/-- C8: script evaluation scope.  `supplied` is read as the source reads it
(`params.element && params.ref`, JS truthiness: a present, non-empty
string).  With neither argument truthy the script runs in whole-page scope;
with both truthy and the ref resolvable it runs scoped to the resolved
element; with exactly one truthy (including the degenerate case of a
present empty string) it runs in whole-page scope — never a partial element
match. -/
theorem C8_evaluate_scope (s : Session) (p : Page) (hp : s.currentPage = some p)
    (fn : String) :
    evaluate s fn none none = .ok (.page fn)
      ∧ (∀ e r sel, strTruthy e = true → strTruthy r = true →
            resolveRef s r = some sel →
            evaluate s fn (some e) (some r) = .ok (.element sel fn))
      ∧ (∀ e, evaluate s fn (some e) none = .ok (.page fn))
      ∧ (∀ r, evaluate s fn none (some r) = .ok (.page fn))
      ∧ (∀ r, evaluate s fn (some "") (some r) = .ok (.page fn)) := by
  refine ⟨?_, ?_, ?_, ?_, ?_⟩
  · rw [evaluate.eq_def, hp]
    rfl
  · intro e r sel he hr hsel
    rw [evaluate.eq_def, hp]
    simp only [optStrTruthy, he, hr, Bool.and_self, if_true, Option.getD_some, hsel]
  · intro e
    rw [evaluate.eq_def, hp]
    simp [optStrTruthy]
  · intro r
    rw [evaluate.eq_def, hp]
    simp [optStrTruthy]
  · intro r
    rw [evaluate.eq_def, hp]
    simp [optStrTruthy, strTruthy]

/-- C8, witness: the scope cases instantiated on the session left by a
snapshot of the Submit page, whose Ref Map binds `e100` to `body`. -/
theorem C8_evaluate_scope_witness :
    evaluate sessionSnap1 "1 + 1" none none = .ok (.page "1 + 1")
      ∧ evaluate sessionSnap1 "1 + 1" (some "Body") (some "e100")
          = .ok (.element "body" "1 + 1")
      ∧ evaluate sessionSnap1 "1 + 1" (some "Body") none = .ok (.page "1 + 1")
      ∧ evaluate sessionSnap1 "1 + 1" none (some "e100") = .ok (.page "1 + 1")
      ∧ evaluate sessionSnap1 "1 + 1" (some "") (some "e100") = .ok (.page "1 + 1") := by
  obtain ⟨h1, h2, h3, h4, h5⟩ := C8_evaluate_scope sessionSnap1 pageA rfl "1 + 1"
  exact ⟨h1, h2 "Body" "e100" "body" rfl rfl rfl, h3 "Body", h4 "e100", h5 "e100"⟩

/-- C9 counterexample: invoking navigate with no active page does not fail
with the `Browser not initialized` precondition error — the handler has no
guard, so the non-null assertion dereferences `null` and the call fails
with an unclassified TypeError instead, for the empty and the non-empty
url alike. -/
theorem C9_counterexample :
    navigate sessionNoPage (fun _ => pageA) ""
        = (.error (.typeError "Cannot read properties of null"), [])
      ∧ navigate sessionNoPage (fun _ => pageA) "https://example.com"
        = (.error (.typeError "Cannot read properties of null"), [])
      ∧ JsError.typeError "Cannot read properties of null"
          ≠ JsError.error "Browser not initialized" := by
  refine ⟨rfl, rfl, ?_⟩
  decide

/-- C9 amended: with no active page, every operation that requires an
active page — snapshot, click, type, press_key, hover, select_option,
drag, fill_form, navigate_back, evaluate, wait_for, take_screenshot,
file_upload, handle_dialog and resize — fails with the
`Browser not initialized` precondition error before issuing any page
action; navigate alone performs no initialization check and fails with a
null-dereference TypeError. -/
theorem C9_amended_not_initialized (s : Session) (h : s.currentPage = none)
    (b : Option DomNode) (el ref txt el2 ref2 key fn url : String)
    (slowly submit : Option Bool) (vals : List String) (fields : List FormField)
    (gotoPage : String → Page) (bp : Page)
    (text textGone : Option String) (time : Option Rat) :
    snapshot s b = .error (.error "Browser not initialized")
      ∧ click s el ref = (.error (.error "Browser not initialized"), [])
      ∧ type s el ref txt slowly submit = (.error (.error "Browser not initialized"), [])
      ∧ pressKey s key = (.error (.error "Browser not initialized"), [])
      ∧ hover s el ref = (.error (.error "Browser not initialized"), [])
      ∧ selectOption s el ref vals = (.error (.error "Browser not initialized"), [])
      ∧ drag s el ref el2 ref2 = (.error (.error "Browser not initialized"), [])
      ∧ fillForm s fields = (.error (.error "Browser not initialized"), [])
      ∧ navigateBack s bp = (.error (.error "Browser not initialized"), [])
      ∧ evaluate s fn none none = .error (.error "Browser not initialized")
      ∧ waitFor s text textGone time = (.error (.error "Browser not initialized"), [])
      ∧ (∀ dir ts fname3 el3 ref3 fullPage ptype,
          takeScreenshot s dir ts fname3 el3 ref3 fullPage ptype
            = (.error (.error "Browser not initialized"), []))
      ∧ (∀ fileInputCount paths,
          fileUpload s fileInputCount paths
            = (.error (.error "Browser not initialized"), []))
      ∧ (∀ accept promptText,
          handleDialog s accept promptText
            = (.error (.error "Browser not initialized"), []))
      ∧ (∀ width height,
          resize s width height = (.error (.error "Browser not initialized"), []))
      ∧ navigate s gotoPage url
          = (.error (.typeError "Cannot read properties of null"), []) := by
  refine ⟨?_, ?_, ?_, ?_, ?_, ?_, ?_, ?_, ?_, ?_, ?_, ?_, ?_, ?_, ?_, ?_⟩
  · rw [snapshot.eq_def, h]
  · rw [click.eq_def, h]
  · rw [type.eq_def, h]
  · rw [pressKey.eq_def, h]
  · rw [hover.eq_def, h]
  · rw [selectOption.eq_def, h]
  · rw [drag.eq_def, h]
  · rw [fillForm.eq_def, h]
  · rw [navigateBack.eq_def, h]
  · rw [evaluate.eq_def, h]
  · rw [waitFor.eq_def, h]
  · intro dir ts fname3 el3 ref3 fullPage ptype
    rw [takeScreenshot.eq_def, h]
  · intro fileInputCount paths
    rw [fileUpload.eq_def, h]
  · intro accept promptText
    rw [handleDialog.eq_def, h]
  · intro width height
    rw [resize.eq_def, h]
  · rw [navigate.eq_def, h]
    simp

/-- C9 amended, witness: the amended statement instantiated at the
uninitialized session. -/
theorem C9_amended_witness :
    snapshot sessionNoPage (some submitPage) = .error (.error "Browser not initialized")
      ∧ click sessionNoPage "Widget" "e100"
          = (.error (.error "Browser not initialized"), [])
      ∧ type sessionNoPage "Widget" "e100" "hi" none none
          = (.error (.error "Browser not initialized"), [])
      ∧ pressKey sessionNoPage "Enter" = (.error (.error "Browser not initialized"), [])
      ∧ hover sessionNoPage "Widget" "e100"
          = (.error (.error "Browser not initialized"), [])
      ∧ selectOption sessionNoPage "Widget" "e100" ["a"]
          = (.error (.error "Browser not initialized"), [])
      ∧ drag sessionNoPage "Widget" "e100" "Other" "e101"
          = (.error (.error "Browser not initialized"), [])
      ∧ fillForm sessionNoPage [] = (.error (.error "Browser not initialized"), [])
      ∧ navigateBack sessionNoPage pageA = (.error (.error "Browser not initialized"), [])
      ∧ evaluate sessionNoPage "1 + 1" none none = .error (.error "Browser not initialized")
      ∧ waitFor sessionNoPage none none none
          = (.error (.error "Browser not initialized"), [])
      ∧ takeScreenshot sessionNoPage "/tmp/electron-mcp" "2026-10-11T00-00-00-000Z"
            none none none none none
          = (.error (.error "Browser not initialized"), [])
      ∧ fileUpload sessionNoPage 1 ["/tmp/a.txt"]
          = (.error (.error "Browser not initialized"), [])
      ∧ handleDialog sessionNoPage true none
          = (.error (.error "Browser not initialized"), [])
      ∧ resize sessionNoPage 800 600 = (.error (.error "Browser not initialized"), [])
      ∧ navigate sessionNoPage (fun _ => pageA) "app://x"
          = (.error (.typeError "Cannot read properties of null"), []) := by
  obtain ⟨h1, h2, h3, h4, h5, h6, h7, h8, h9, h10, h11, h12, h13, h14, h15, h16⟩ :=
    C9_amended_not_initialized sessionNoPage rfl (some submitPage)
      "Widget" "e100" "hi" "Other" "e101" "Enter" "1 + 1" "app://x"
      none none ["a"] [] (fun _ => pageA) pageA none none none
  exact ⟨h1, h2, h3, h4, h5, h6, h7, h8, h9, h10, h11,
    h12 "/tmp/electron-mcp" "2026-10-11T00-00-00-000Z" none none none none none,
    h13 1 ["/tmp/a.txt"], h14 true none, h15 800 600, h16⟩

/-- C10: the wait_for schema accepts the empty argument object (all three
condition fields are optional), the dispatcher then invokes the handler,
and the handler with none of text, textGone and time supplied throws
`No wait condition specified` rather than succeeding as a no-op. -/
theorem C10_wait_for_no_condition (s : Session) (p : Page)
    (hp : s.currentPage = some p) :
    waitFor s none none none = (.error (.error "No wait condition specified"), [])
      ∧ zparseIssues WaitForSchema (some (Json.obj [])) = []
      ∧ dispatchStep "browser_wait_for" (some (Json.obj []))
          = .invokeHandler "browser_wait_for" (Json.obj []) := by
  refine ⟨?_, rfl, rfl⟩
  rw [waitFor.eq_def, hp]
  rfl

/-- C10, witness: the statement instantiated at an initialized session. -/
theorem C10_wait_for_witness :
    waitFor sessionReady none none none
        = (.error (.error "No wait condition specified"), [])
      ∧ zparseIssues WaitForSchema (some (Json.obj [])) = []
      ∧ dispatchStep "browser_wait_for" (some (Json.obj []))
          = .invokeHandler "browser_wait_for" (Json.obj []) :=
  C10_wait_for_no_condition sessionReady pageA rfl

/-- C1: dispatching the empty-argument operations with an absent arguments
field.  The parse of `args ?? \x7b\x7d` validates the empty object and
succeeds, but the dispatcher then also parses the raw absent arguments
(`const validatedArgs2 = tool.schema.parse(args)`, an unused value), and
`z.object(...).parse(undefined)` throws its root `Required` issue; the
catch clause wraps the `ZodError` as
`McpError(InternalError, 'Tool execution failed: ...')`, so the call fails
and the handler is never invoked.  The last two conjuncts show the schema
accepts the empty object and that the same call with an explicit empty
object does reach the handler — the failure is caused precisely by the
second parse of the absent field. -/
theorem C1_absent_args_rejected :
    dispatchStep "browser_snapshot" none
        = .validationFailed "Tool execution failed: Required"
      ∧ dispatchStep "browser_navigate_back" none
        = .validationFailed "Tool execution failed: Required"
      ∧ dispatchStep "browser_close" none
        = .validationFailed "Tool execution failed: Required"
      ∧ dispatchStep "browser_network_requests" none
        = .validationFailed "Tool execution failed: Required"
      ∧ dispatchStep "browser_console_messages" none
        = .validationFailed "Tool execution failed: Required"
      ∧ zparseIssues EmptySchema (some (Json.obj [])) = []
      ∧ dispatchStep "browser_snapshot" (some (Json.obj []))
          = .invokeHandler "browser_snapshot" (Json.obj []) := by
  exact ⟨rfl, rfl, rfl, rfl, rfl, rfl, rfl⟩

/-- C5 counterexample: an invocation of click with an empty-object argument
(missing both required fields) is not surfaced as a distinct
invalid-arguments classification — the `ZodError` is wrapped by the catch
clause as the same generic `InternalError` code with the
`Tool execution failed` prefix used for execution failures. -/
theorem C5_counterexample :
    dispatchStep "browser_click" (some (Json.obj []))
        = .validationFailed "Tool execution failed: element: Required; ref: Required"
      ∧ stepErrorCode (dispatchStep "browser_click" (some (Json.obj [])))
          = some execFailureCode := by
  exact ⟨rfl, rfl⟩

/-- C5 amended: a schema-violating invocation is rejected before the
handler runs, but the `ZodError` is caught and re-wrapped as the generic
`McpError(InternalError, 'Tool execution failed: ...')` used for execution
failures; the embedded zod message names the violated field path, but the
classification is not distinct from an execution failure. -/
theorem C5_amended_validation_wrapped (name : String) (sch : ZObjSchema)
    (hs : getToolSchema name = some sch) (args : Json)
    (i : ZodIssue) (is : List ZodIssue)
    (h : zparseIssues sch (some args) = i :: is) :
    dispatchStep name (some args)
        = .validationFailed ("Tool execution failed: " ++ renderIssues (i :: is))
      ∧ stepErrorCode (dispatchStep name (some args)) = some execFailureCode := by
  have h1 : dispatchStep name (some args)
      = .validationFailed ("Tool execution failed: " ++ renderIssues (i :: is)) := by
    rw [dispatchStep.eq_def, hs]
    simp only [Option.getD_some, h]
  exact ⟨h1, by rw [h1]; rfl⟩

/-- C5 amended, witness: click invoked with only the element field; the
missing required ref field is reported inside the wrapped generic
execution-failure message. -/
theorem C5_amended_witness :
    dispatchStep "browser_click" (some (Json.obj [("element", Json.str "x")]))
        = .validationFailed ("Tool execution failed: "
            ++ renderIssues [{ path := ["ref"], message := "Required" }])
      ∧ stepErrorCode
            (dispatchStep "browser_click" (some (Json.obj [("element", Json.str "x")])))
          = some execFailureCode :=
  C5_amended_validation_wrapped "browser_click" ClickSchema rfl
    (Json.obj [("element", Json.str "x")]) { path := ["ref"], message := "Required" } [] rfl

theorem isToolName_false_schema_none (name : String) (h : isToolName name = false) :
    getToolSchema name = none := by
  have hf : TOOL_REGISTRY.find? (fun p => p.1 == name) = none := by
    rw [List.find?_eq_none]
    intro p hp hbe
    rw [isToolName, List.any_eq_false] at h
    exact h p hp hbe
  rw [getToolSchema, hf]
  rfl

/-- C6: an invocation whose operation name is not a registry key fails as
`McpError(MethodNotFound, 'Unknown tool: ...')` regardless of the supplied
arguments — before any validation or handler execution — and the catch
clause rethrows this protocol-level error unchanged
(`error instanceof McpError`); its classification is distinct from the
`InternalError` code assigned to execution failures. -/
theorem C6_unknown_tool (name : String) (h : isToolName name = false)
    (args : Option Json) :
    dispatchStep name args = .unknownTool ("Unknown tool: " ++ name)
      ∧ stepErrorCode (dispatchStep name args) = some McpErrorCode.methodNotFound
      ∧ McpErrorCode.methodNotFound ≠ execFailureCode := by
  have hs := isToolName_false_schema_none name h
  have h1 : dispatchStep name args = .unknownTool ("Unknown tool: " ++ name) := by
    rw [dispatchStep.eq_def, hs]
  refine ⟨h1, by rw [h1]; rfl, by decide⟩

/-- C6, witness: a concrete unregistered operation name. -/
theorem C6_unknown_tool_witness :
    dispatchStep "browser_foo" none = .unknownTool ("Unknown tool: " ++ "browser_foo")
      ∧ stepErrorCode (dispatchStep "browser_foo" none)
          = some McpErrorCode.methodNotFound
      ∧ McpErrorCode.methodNotFound ≠ execFailureCode :=
  C6_unknown_tool "browser_foo" rfl none

end EPMcp
